import Mathlib

/-!
Verification of the argument resolver `opf_args` from `src/pypower/opf_args.py`.

The embedding is a shallow model of the Python function body, value by value
and statement by statement.  Python runtime behaviour that the function relies
on is modelled explicitly:

* `Val` is the type of Python values that can reach the function: `None`,
  dense numpy arrays (1-D and 2-D, integer entries suffice for the claims),
  scipy sparse matrices (shape plus a dense listing of the stored entries),
  strings, numbers, dicts (association lists, used for case structures),
  function objects (`fn 0` is the module-level `ppoption` function object)
  and tuples.
* `pyTruthy`/`pyAny` model `bool(x)` and the builtin `any(x)`, including the
  numpy/scipy behaviour of raising `ValueError` for ambiguous truth values
  and `TypeError` for non-iterables.
* `shape0`, `shape1`, `pyLen` model `x.shape[0]`, `x.shape[1]` and `len(x)`.
* Errors are values of `PyErr`; `Except PyErr` threads them.  `logger.error`
  calls are modelled as appended log messages (the call keeps running),
  while the source's `logger.logger.error(...)` is an attribute access on a
  `logging.Logger`, which itself raises `AttributeError` (a `Logger` has no
  attribute `logger`); the module-level logger of line 24 is modelled as a
  plain bound standard logger.

The exact operator semantics of the source are kept, in particular Python's
precedence: in lines 176-190 `not any(x) & d.has_key(k)` parses as
`not (any(x) & d.has_key(k))`; in line 282 `any(fparm) & fparm.shape[0] != nw`
parses as `(any(fparm) & fparm.shape[0]) != nw` with `bool & int` being
bitwise; line 285 contains the chained comparison
`H.shape[0] != (nw | H.shape[0]) != nw`; line 288 parses as the chain
`Au.shape[0] > (0 & N.shape[1]) != Au.shape[1]`.  Lines 202-204, 209-210 and
219-220 of the source are not a single unpacking statement (there is no line
continuation), so the first of those lines is a tuple display that evaluates
the unbound name `bus` and raises `NameError`.
-/

set_option linter.unusedVariables false

namespace Pypower

/-- Python values reaching `opf_args` (see the file header). -/
inductive Val where
  | none
  | num (n : Int)
  | vec (xs : List Int)
  | mat (xss : List (List Int))
  | sp (r c : Nat) (xss : List (List Int))
  | str (s : String)
  | pycase (d : List (String × Val))
  | fn (n : Nat)
  | tuple (xs : List Val)
deriving Repr

/-- Errors that executing the function body can raise.  The constructors
`attributeError`, `typeError`, `valueError`, `keyError`, `nameError` and
`indexError` are the Python exceptions the source can actually hit;
`delegatedLoadError` is the failure of the external case loader (spec
section 7).  `arityError` and `dimensionMismatchError` are modelled from the
spec's error taxonomy (section 7); the source never constructs a value of
either, which is what several claims turn on. -/
inductive PyErr where
  | attributeError (msg : String)
  | typeError (msg : String)
  | valueError (msg : String)
  | keyError (k : String)
  | nameError (n : String)
  | indexError
  | delegatedLoadError (msg : String)
  | arityError
  | dimensionMismatchError
deriving Repr, DecidableEq

/-- Message of the `AttributeError` raised by `logger.logger.error` in
lines 167 and 269: a `logging.Logger` has no attribute `logger`. -/
def loggerAttrMsg : String := "Logger object has no attribute logger"

/-- Message of the `AttributeError` raised by `None.shape` (line 277 when
`N` is `None`). -/
def noneShapeMsg : String := "NoneType object has no attribute shape"

/-- Message of the `TypeError` raised by `any(None)` (lines 176-190 when the
inspected component is `None`). -/
def noneIterMsg : String := "NoneType object is not iterable"

/-- Message of the `ValueError` raised when truth-testing a numpy array or
scipy sparse matrix with more than one element. -/
def ambiguousMsg : String := "truth value of an array with more than one element is ambiguous"

/-- `bool(v)` for a Python value `v`.  numpy arrays: size 0 is falsy, size 1
is the truth of the single entry, otherwise `ValueError`; scipy sparse
matrices: only shape `(1, 1)` has a truth value (its nonzero count),
otherwise `ValueError`. -/
def pyTruthy : Val → Except PyErr Bool
  | Val.none => Except.ok false
  | Val.num n => Except.ok (n ≠ 0)
  | Val.str s => Except.ok (!s.isEmpty)
  | Val.fn _ => Except.ok true
  | Val.pycase d => Except.ok (!d.isEmpty)
  | Val.tuple xs => Except.ok (!xs.isEmpty)
  | Val.vec xs =>
    match xs with
    | [] => Except.ok false
    | [x] => Except.ok (x ≠ 0)
    | _ => Except.error (PyErr.valueError ambiguousMsg)
  | Val.mat xss =>
    match xss.foldr (· ++ ·) [] with
    | [] => Except.ok false
    | [x] => Except.ok (x ≠ 0)
    | _ => Except.error (PyErr.valueError ambiguousMsg)
  | Val.sp r c xss =>
    if r = 1 ∧ c = 1 then Except.ok (xss.any (fun row => row.any (· ≠ 0)))
    else Except.error (PyErr.valueError ambiguousMsg)

/-- `any` over the rows of a 2-D dense array: each row is truth-tested in
order (short-circuiting), a row of width one is its entry, an empty row is
falsy, a wider row raises `ValueError`. -/
def anyRowsDense : List (List Int) → Except PyErr Bool
  | [] => Except.ok false
  | row :: rest =>
    match row with
    | [] => anyRowsDense rest
    | [x] => if x ≠ 0 then Except.ok true else anyRowsDense rest
    | _ => Except.error (PyErr.valueError ambiguousMsg)

/-- `any` over the rows of a sparse matrix: iterating a scipy sparse matrix
yields its rows as `1 × c` sparse matrices, whose truth value exists only
for `c = 1` (the nonzero count) and raises `ValueError` otherwise. -/
def anyRowsSparse (c : Nat) : List (List Int) → Except PyErr Bool
  | [] => Except.ok false
  | row :: rest =>
    if c = 1 then
      if row.any (· ≠ 0) then Except.ok true else anyRowsSparse c rest
    else Except.error (PyErr.valueError ambiguousMsg)

/-- `any` over the elements of a tuple, truth-testing each element. -/
def anyVals : List Val → Except PyErr Bool
  | [] => Except.ok false
  | v :: rest =>
    match pyTruthy v with
    | Except.error e => Except.error e
    | Except.ok true => Except.ok true
    | Except.ok false => anyVals rest

/-- The builtin `any(v)`: iterates `v` and truth-tests its elements.
Non-iterables (`None`, numbers, function objects) raise `TypeError`. -/
def pyAny : Val → Except PyErr Bool
  | Val.none => Except.error (PyErr.typeError noneIterMsg)
  | Val.num _ => Except.error (PyErr.typeError "int object is not iterable")
  | Val.fn _ => Except.error (PyErr.typeError "function object is not iterable")
  | Val.vec xs => Except.ok (xs.any (· ≠ 0))
  | Val.mat xss => anyRowsDense xss
  | Val.sp _ c xss => anyRowsSparse c xss
  | Val.str s => Except.ok (!s.isEmpty)
  | Val.pycase d => Except.ok (d.any (fun kv => !kv.1.isEmpty))
  | Val.tuple xs => anyVals xs

/-- `v.shape[0]`. -/
def shape0 : Val → Except PyErr Nat
  | Val.vec xs => Except.ok xs.length
  | Val.mat xss => Except.ok xss.length
  | Val.sp r _ _ => Except.ok r
  | Val.none => Except.error (PyErr.attributeError noneShapeMsg)
  | _ => Except.error (PyErr.attributeError "object has no attribute shape")

/-- `v.shape[1]`; a 1-D array's shape tuple has length one, so indexing it
at 1 raises `IndexError`. -/
def shape1 : Val → Except PyErr Nat
  | Val.vec _ => Except.error PyErr.indexError
  | Val.mat xss => Except.ok (xss.headD []).length
  | Val.sp _ c _ => Except.ok c
  | Val.none => Except.error (PyErr.attributeError noneShapeMsg)
  | _ => Except.error (PyErr.attributeError "object has no attribute shape")

/-- `len(v)`.  `len` of a scipy sparse matrix raises `TypeError`
("sparse matrix length is ambiguous"), and so does `len` of `None`, of a
number and of a function object (relevant for line 300 when `ppopt` holds
the `ppoption` function object). -/
def pyLen : Val → Except PyErr Nat
  | Val.vec xs => Except.ok xs.length
  | Val.mat xss => Except.ok xss.length
  | Val.str s => Except.ok s.length
  | Val.pycase d => Except.ok d.length
  | Val.tuple xs => Except.ok xs.length
  | Val.sp _ _ _ => Except.error (PyErr.typeError "sparse matrix length is ambiguous")
  | Val.none => Except.error (PyErr.typeError "object of type NoneType has no len")
  | Val.num _ => Except.error (PyErr.typeError "object of type int has no len")
  | Val.fn _ => Except.error (PyErr.typeError "object of type function has no len")

/-- `isinstance(v, str) or isinstance(v, dict)` — the convention test of
line 92. -/
def isinstStrDict : Val → Bool
  | Val.str _ => true
  | Val.pycase _ => true
  | _ => false

/-- `isinstance(v, spmatrix)` — the sparse-type tests of lines 292-298. -/
def isSpmatrix : Val → Bool
  | Val.sp _ _ _ => true
  | _ => false

/-- Key lookup in a dict modelled as an association list. -/
def dlookup : List (String × Val) → String → Option Val
  | [], _ => Option.none
  | (k2, v) :: rest, k => if k2 = k then Option.some v else dlookup rest k

/-- `d.has_key(k)` (the source runs under Python 2 dict semantics). -/
def hasKey (d : List (String × Val)) (k : String) : Bool :=
  (dlookup d k).isSome

/-- `d[k]`: `KeyError` when the key is absent. -/
def dget (d : List (String × Val)) (k : String) : Except PyErr Val :=
  match dlookup d k with
  | Option.some v => Except.ok v
  | Option.none => Except.error (PyErr.keyError k)

/-- Field access `d.k` on the loaded case structure.  Modelled from the
spec: the loader's product has its embedded fields "accessible by name,
with a query for does field X exist" (section 6), which covers both the
attribute style (`ppc.baseMVA`, `ppc.userfcn`) and the item style
(`ppc["A"]`) the source mixes; a missing name raises `AttributeError`. -/
def attrGet (d : List (String × Val)) (k : String) : Except PyErr Val :=
  match dlookup d k with
  | Option.some v => Except.ok v
  | Option.none => Except.error (PyErr.attributeError k)

/-- `d[k] = v`: replace in place, else append (insertion order kept). -/
def dset : List (String × Val) → String → Val → List (String × Val)
  | [], k, v => [(k, v)]
  | (k2, v2) :: rest, k, v =>
    if k2 = k then (k2, v) :: rest else (k2, v2) :: dset rest k v

/-- Modelled from the spec: the external case loader (`loadcase`, spec
section 6), whose code is not part of this repository.  It accepts a
filename or a case-structure value and returns a populated case descriptor
whose required base fields are present, failing otherwise ("missing file,
malformed structure, missing required base fields", spec section 7).  File
contents are outside the model, so a filename is treated as a load failure;
a case structure with all required base fields is returned as given; any
other argument (such as the tuple the source passes at arity 1) fails. -/
def loadcase : Val → Except PyErr (List (String × Val))
  | Val.pycase d =>
    if hasKey d "baseMVA" ∧ hasKey d "bus" ∧ hasKey d "gen" ∧
       hasKey d "branch" ∧ hasKey d "gencost" then Except.ok d
    else Except.error (PyErr.delegatedLoadError "missing required base fields")
  | Val.str s => Except.error (PyErr.delegatedLoadError s)
  | _ => Except.error (PyErr.delegatedLoadError "not a filename or case struct")

/-- Modelled from the spec: the module-level `ppoption` collaborator is a
function; the source refers to the bare name (lines 127, 161, 229, 263,
301), so the value that flows into `ppopt` is the function object itself,
never the default options table. -/
def ppoptionFn : Val := Val.fn 0

/-- The optional-component local variables of the function body after
destructuring: `Au, lbu, ubu, ppopt, N, fparm, H, Cw, z0, zl, zu, userfcn`. -/
structure Slots where
  Au : Val
  lbu : Val
  ubu : Val
  ppopt : Val
  N : Val
  fparm : Val
  H : Val
  Cw : Val
  z0 : Val
  zl : Val
  zu : Val
  userfcn : Val
deriving Repr

/-- Case-handle destructuring, lines 101-165.  Every arity case sets exactly
the defaults the source sets (`array([])` is `Val.vec []`, `None` is
`Val.none`, the bare `ppoption` reference is the function object); `userfcn`
starts as `array([])` from line 89.  At arity 1 the source binds
`casefile = args` — the whole argument tuple, not its element.  The fall
through branch (lines 166-167) runs `logger.logger.error(...)`, which raises
`AttributeError` at the attribute access. -/
def destructureCase (args : List Val) : Except PyErr (Val × Slots) :=
  match args with
  | [cf, au, l, u, po, n, fp, h, cw, a, b, c] =>
    Except.ok (cf,
      { Au := au, lbu := l, ubu := u, ppopt := po, N := n,
        fparm := fp, H := h, Cw := cw, z0 := a, zl := b, zu := c,
        userfcn := Val.vec [] })
  | [cf, au, l, u, po, n, fp, h, cw] =>
    Except.ok (cf,
      { Au := au, lbu := l, ubu := u, ppopt := po, N := n,
        fparm := fp, H := h, Cw := cw, z0 := Val.vec [], zl := Val.vec [],
        zu := Val.vec [], userfcn := Val.vec [] })
  | [cf, au, l, u, po] =>
    Except.ok (cf,
      { Au := au, lbu := l, ubu := u, ppopt := po,
        N := Val.none, fparm := Val.vec [], H := Val.none, Cw := Val.vec [],
        z0 := Val.vec [], zl := Val.vec [], zu := Val.vec [],
        userfcn := Val.vec [] })
  | [cf, au, l, u] =>
    Except.ok (cf,
      { Au := au, lbu := l, ubu := u, ppopt := ppoptionFn,
        N := Val.none, fparm := Val.vec [], H := Val.none, Cw := Val.vec [],
        z0 := Val.vec [], zl := Val.vec [], zu := Val.vec [],
        userfcn := Val.vec [] })
  | [cf, uf, po] =>
    Except.ok (cf,
      { Au := Val.none, lbu := Val.vec [], ubu := Val.vec [],
        ppopt := po, N := Val.none, fparm := Val.vec [], H := Val.none,
        Cw := Val.vec [], z0 := Val.vec [], zl := Val.vec [],
        zu := Val.vec [], userfcn := uf })
  | [cf, po] =>
    Except.ok (cf,
      { Au := Val.none, lbu := Val.vec [], ubu := Val.vec [],
        ppopt := po, N := Val.none, fparm := Val.vec [], H := Val.none,
        Cw := Val.vec [], z0 := Val.vec [], zl := Val.vec [],
        zu := Val.vec [], userfcn := Val.vec [] })
  | [cf] =>
    Except.ok (Val.tuple [cf],
      { Au := Val.none, lbu := Val.vec [],
        ubu := Val.vec [], ppopt := ppoptionFn, N := Val.none,
        fparm := Val.vec [], H := Val.none, Cw := Val.vec [],
        z0 := Val.vec [], zl := Val.vec [], zu := Val.vec [],
        userfcn := Val.vec [] })
  | _ => Except.error (PyErr.attributeError loggerAttrMsg)

/-- The six leading values plus slots produced by explicit-matrices
destructuring. -/
structure ExpParts where
  baseMVA : Val
  bus : Val
  gen : Val
  branch : Val
  areas : Val
  gencost : Val
  s : Slots
deriving Repr

/-- Explicit-matrices destructuring, lines 201-267.  Arities 6, 7, 8, 9 are
single-line unpackings and succeed; at arities 10, 14 and 17 the unpacking
is split over two lines with no continuation (lines 202-204, 209-210,
219-220), so the first of each pair is a tuple display that evaluates the
unbound name `bus` and raises `NameError`.  The fall-through branch
(lines 268-269) raises `AttributeError` at `logger.logger`. -/
def destructureExplicit (args : List Val) : Except PyErr ExpParts :=
  match args with
  | [b, bus, g, br, ar, gc, au, l, u] =>
    Except.ok
      { baseMVA := b, bus := bus, gen := g, branch := br,
        areas := ar, gencost := gc,
        s := { Au := au, lbu := l, ubu := u, ppopt := ppoptionFn,
               N := Val.none, fparm := Val.vec [], H := Val.none,
               Cw := Val.vec [], z0 := Val.vec [], zl := Val.vec [],
               zu := Val.vec [], userfcn := Val.vec [] } }
  | [b, bus, g, br, ar, gc, uf, po] =>
    Except.ok
      { baseMVA := b, bus := bus, gen := g, branch := br,
        areas := ar, gencost := gc,
        s := { Au := Val.none, lbu := Val.vec [], ubu := Val.vec [],
               ppopt := po, N := Val.none, fparm := Val.vec [],
               H := Val.none, Cw := Val.vec [], z0 := Val.vec [],
               zl := Val.vec [], zu := Val.vec [], userfcn := uf } }
  | [b, bus, g, br, ar, gc, po] =>
    Except.ok
      { baseMVA := b, bus := bus, gen := g, branch := br,
        areas := ar, gencost := gc,
        s := { Au := Val.none, lbu := Val.vec [], ubu := Val.vec [],
               ppopt := po, N := Val.none, fparm := Val.vec [],
               H := Val.none, Cw := Val.vec [], z0 := Val.vec [],
               zl := Val.vec [], zu := Val.vec [],
               userfcn := Val.vec [] } }
  | [b, bus, g, br, ar, gc] =>
    Except.ok
      { baseMVA := b, bus := bus, gen := g, branch := br,
        areas := ar, gencost := gc,
        s := { Au := Val.none, lbu := Val.vec [], ubu := Val.vec [],
               ppopt := ppoptionFn, N := Val.none, fparm := Val.vec [],
               H := Val.none, Cw := Val.vec [], z0 := Val.vec [],
               zl := Val.vec [], zu := Val.vec [],
               userfcn := Val.vec [] } }
  | _ =>
    if args.length = 10 ∨ args.length = 14 ∨ args.length = 17 then
      Except.error (PyErr.nameError "bus")
    else Except.error (PyErr.attributeError loggerAttrMsg)

/-- One case-merge conditional (lines 180-189 instantiate it for `H`,
`fparm`, `z0`, `zl`, `zu`): `if not any(cur) & ppc.has_key(k): cur = ppc[k]`.
Python precedence makes the guard `not (any(cur) & ppc.has_key(k))`, so
whenever the conjunction fails — in particular whenever the case lacks the
field — the adoption from `ppc[k]` runs (raising `KeyError` if absent). -/
def adopt1 (ppc : List (String × Val)) (k : String) (cur : Val) :
    Except PyErr Val :=
  match pyAny cur with
  | Except.error e => Except.error e
  | Except.ok b =>
    if ¬ (b ∧ hasKey ppc k) then dget ppc k else Except.ok cur

/-- Lines 176-177: the constraint-triple merge conditional (same guard shape
as `adopt1`, adopting `ppc["A"], ppc["l"], ppc["u"]`). -/
def adopt3 (ppc : List (String × Val)) (au l u : Val) :
    Except PyErr (Val × Val × Val) :=
  match pyAny au with
  | Except.error e => Except.error e
  | Except.ok b =>
    if ¬ (b ∧ hasKey ppc "A") then
      match dget ppc "A" with
      | Except.error e => Except.error e
      | Except.ok a2 =>
        match dget ppc "l" with
        | Except.error e => Except.error e
        | Except.ok l2 =>
          match dget ppc "u" with
          | Except.error e => Except.error e
          | Except.ok u2 => Except.ok (a2, l2, u2)
    else Except.ok (au, l, u)

/-- Lines 178-179: the `N`/`Cw` merge conditional ("these two must go
together"). -/
def adoptN (ppc : List (String × Val)) (n cw : Val) :
    Except PyErr (Val × Val) :=
  match pyAny n with
  | Except.error e => Except.error e
  | Except.ok b =>
    if ¬ (b ∧ hasKey ppc "N") then
      match dget ppc "N" with
      | Except.error e => Except.error e
      | Except.ok n2 =>
        match dget ppc "Cw" with
        | Except.error e => Except.error e
        | Except.ok cw2 => Except.ok (n2, cw2)
    else Except.ok (n, cw)

/-- Lines 190-191: the `userfcn` merge conditional; the adoption reads the
attribute `ppc.userfcn`. -/
def adoptU (ppc : List (String × Val)) (cur : Val) : Except PyErr Val :=
  match pyAny cur with
  | Except.error e => Except.error e
  | Except.ok b =>
    if ¬ (b ∧ hasKey ppc "userfcn") then attrGet ppc "userfcn"
    else Except.ok cur

/-- Lines 169-191 of the case-handle branch: load the case, read the base
fields (line 170-171 uses attribute access on the loaded structure), pick up
`areas` (lines 172-175) and run the per-component merge conditionals in
source order. -/
def mergeCase (cf : Val) (s : Slots) :
    Except PyErr (List (String × Val) × Val × Slots) :=
  match loadcase cf with
  | Except.error e => Except.error e
  | Except.ok ppc =>
    match attrGet ppc "baseMVA" with
    | Except.error e => Except.error e
    | Except.ok _ =>
      match attrGet ppc "bus" with
      | Except.error e => Except.error e
      | Except.ok _ =>
        match attrGet ppc "gen" with
        | Except.error e => Except.error e
        | Except.ok _ =>
          match attrGet ppc "branch" with
          | Except.error e => Except.error e
          | Except.ok _ =>
            match attrGet ppc "gencost" with
            | Except.error e => Except.error e
            | Except.ok _ =>
              match (if hasKey ppc "areas" then attrGet ppc "areas"
                     else Except.ok (Val.vec [])) with
              | Except.error e => Except.error e
              | Except.ok areas =>
                match adopt3 ppc s.Au s.lbu s.ubu with
                | Except.error e => Except.error e
                | Except.ok (au2, l2, u2) =>
                  match adoptN ppc s.N s.Cw with
                  | Except.error e => Except.error e
                  | Except.ok (n2, cw2) =>
                    match adopt1 ppc "H" s.H with
                    | Except.error e => Except.error e
                    | Except.ok h2 =>
                      match adopt1 ppc "fparm" s.fparm with
                      | Except.error e => Except.error e
                      | Except.ok fp2 =>
                        match adopt1 ppc "z0" s.z0 with
                        | Except.error e => Except.error e
                        | Except.ok z02 =>
                          match adopt1 ppc "zl" s.zl with
                          | Except.error e => Except.error e
                          | Except.ok zl2 =>
                            match adopt1 ppc "zu" s.zu with
                            | Except.error e => Except.error e
                            | Except.ok zu2 =>
                              match adoptU ppc s.userfcn with
                              | Except.error e => Except.error e
                              | Except.ok uf2 =>
                                Except.ok (ppc, areas,
                                  { s with
                                    Au := au2, lbu := l2, ubu := u2,
                                    N := n2, Cw := cw2, H := h2,
                                    fparm := fp2, z0 := z02, zl := zl2,
                                    zu := zu2, userfcn := uf2 })

/-- Log message of line 280. -/
def cwMsg : String := "opf_args.m: dimension mismatch between N and Cw in generalized cost parameters"

/-- Log message of line 283. -/
def fparmMsg : String := "opf_args.m: dimension mismatch between N and fparm in generalized cost parameters"

/-- Log message of line 286. -/
def hMsg : String := "opf_args.m: dimension mismatch between N and H in generalized cost parameters"

/-- Log message of line 289. -/
def colMsg : String := "opf_args.m: A and N must have the same number of columns"

/-- Log message of line 293. -/
def nSparseMsg : String := "opf_args.m: N must be sparse in generalized cost parameters"

/-- Log message of line 296. -/
def hSparseMsg : String := "opf_args.m: H must be sparse in generalized cost parameters"

/-- Log message of line 299. -/
def auSparseMsg : String := "opf_args.m: Au must be sparse"

/-- Lines 278-296, the checks guarded by `if nw:`.  Every failed check only
appends a log message (`logger.error`) and execution continues.  The
conditions are modelled with the source's exact (mis)parsing, documented in
the file header: line 282 computes `(any(fparm) & fparm.shape[0]) != nw`
with a bitwise `bool & int`; line 285 computes
`any(H) & (H.shape[0] != (nw | H.shape[0]) != nw)` as a chained comparison;
line 288 computes the chain `Au.shape[0] > (0 & N.shape[1])` and
`(0 & N.shape[1]) != Au.shape[1]`, the second comparand evaluated only when
the first comparison holds. -/
def validateCost (nw : Nat) (s : Slots) : Except PyErr (List String) :=
  match shape0 s.Cw with
  | Except.error e => Except.error e
  | Except.ok cwr =>
    let log1 := if cwr ≠ nw then [cwMsg] else []
    match pyAny s.fparm with
    | Except.error e => Except.error e
    | Except.ok af =>
      match shape0 s.fparm with
      | Except.error e => Except.error e
      | Except.ok fr =>
        let log2 := if ((if af then 1 else 0) &&& fr) ≠ nw then [fparmMsg] else []
        match pyAny s.H with
        | Except.error e => Except.error e
        | Except.ok ah =>
          match shape0 s.H with
          | Except.error e => Except.error e
          | Except.ok h0 =>
            let hb := nw ||| h0
            let log3 := if ah ∧ (h0 ≠ hb ∧ hb ≠ nw) then [hMsg] else []
            match shape0 s.Au with
            | Except.error e => Except.error e
            | Except.ok a0 =>
              match shape1 s.N with
              | Except.error e => Except.error e
              | Except.ok n1 =>
                let mid := 0 &&& n1
                match (if a0 > mid then
                        match shape1 s.Au with
                        | Except.error e => Except.error e
                        | Except.ok a1 =>
                          Except.ok (if mid ≠ a1 then [colMsg] else [])
                       else Except.ok ([] : List String)) with
                | Except.error e => Except.error e
                | Except.ok log4 =>
                  let log5 := if ¬ isSpmatrix s.N then [nSparseMsg] else []
                  let log6 := if ¬ isSpmatrix s.H then [hSparseMsg] else []
                  Except.ok (log1 ++ log2 ++ log3 ++ log4 ++ log5 ++ log6)

/-- Lines 302-320: embed the non-empty components into the case dict, in
source order; `any(fparm)` and `any(H)` are only tested when `any(N)` held. -/
def assemble (ppc : List (String × Val)) (areas : Val) (s : Slots) :
    Except PyErr (List (String × Val)) :=
  match pyAny areas with
  | Except.error e => Except.error e
  | Except.ok ba =>
    let d1 := if ba then dset ppc "areas" areas else ppc
    match pyAny s.Au with
    | Except.error e => Except.error e
    | Except.ok bAu =>
      let d2 := if bAu then dset (dset (dset d1 "A" s.Au) "l" s.lbu) "u" s.ubu else d1
      match pyAny s.N with
      | Except.error e => Except.error e
      | Except.ok bN =>
        match (if bN then
                let t := dset (dset d2 "N" s.N) "Cw" s.Cw
                match pyAny s.fparm with
                | Except.error e => Except.error e
                | Except.ok bf =>
                  let t2 := if bf then dset t "fparm" s.fparm else t
                  match pyAny s.H with
                  | Except.error e => Except.error e
                  | Except.ok bh => Except.ok (if bh then dset t2 "H" s.H else t2)
               else Except.ok d2) with
        | Except.error e => Except.error e
        | Except.ok d3 =>
          match pyAny s.z0 with
          | Except.error e => Except.error e
          | Except.ok b0 =>
            let d4 := if b0 then dset d3 "z0" s.z0 else d3
            match pyAny s.zl with
            | Except.error e => Except.error e
            | Except.ok bl =>
              let d5 := if bl then dset d4 "zl" s.zl else d4
              match pyAny s.zu with
              | Except.error e => Except.error e
              | Except.ok bu2 =>
                let d6 := if bu2 then dset d5 "zu" s.zu else d5
                match pyAny s.userfcn with
                | Except.error e => Except.error e
                | Except.ok bf2 =>
                  Except.ok (if bf2 then dset d6 "userfcn" s.userfcn else d6)

/-- The 12-component value of the `return` statement in line 324, in the
source's order: `ppc, Au, lbu, ubu, ppopt, N, fparm, H, Cw, z0, zl, zu`. -/
structure OpfResult where
  ppc : Val
  Au : Val
  lbu : Val
  ubu : Val
  ppopt : Val
  N : Val
  fparm : Val
  H : Val
  Cw : Val
  z0 : Val
  zl : Val
  zu : Val
deriving Repr

/-- Lines 277-324, common to both conventions: `nw = N.shape[0]`; the
guarded cost checks; the always-run `Au` sparse check of line 298; the
`ppopt` defaulting of lines 300-301 (which assigns the bare `ppoption`
function object); the assembly of lines 302-320; and the return of
line 324.  The reassignments `baseMVA = ppc` and `bus = ppopt` of
lines 321-322 rebind locals that the `want_ppc` return never reads, so they
have no observable effect.  The second component of the result collects the
`logger.error` messages that were emitted along the way. -/
def commonTail (ppc : List (String × Val)) (areas : Val) (s : Slots) :
    Except PyErr (OpfResult × List String) :=
  match shape0 s.N with
  | Except.error e => Except.error e
  | Except.ok nw =>
    match (if nw ≠ 0 then validateCost nw s else Except.ok ([] : List String)) with
    | Except.error e => Except.error e
    | Except.ok logs1 =>
      match pyLen s.ppopt with
      | Except.error e => Except.error e
      | Except.ok plen =>
        match assemble ppc areas s with
        | Except.error e => Except.error e
        | Except.ok d =>
          Except.ok
            ({ ppc := Val.pycase d, Au := s.Au, lbu := s.lbu, ubu := s.ubu,
               ppopt := if plen = 0 then ppoptionFn else s.ppopt,
               N := s.N, fparm := s.fparm, H := s.H,
               Cw := s.Cw, z0 := s.z0, zl := s.zl, zu := s.zu },
             logs1 ++ (if ¬ isSpmatrix s.Au then [auSparseMsg] else []))

/-- The case-handle branch: destructure (lines 101-167), merge
(lines 169-191), then the common tail. -/
def caseHandle (args : List Val) : Except PyErr (OpfResult × List String) :=
  match destructureCase args with
  | Except.error e => Except.error e
  | Except.ok (cf, s) =>
    match mergeCase cf s with
    | Except.error e => Except.error e
    | Except.ok (ppc, areas, s2) => commonTail ppc areas s2

/-- The explicit-matrices branch: destructure (lines 201-269), build the
case dict from the five base matrices (lines 271-276; `areas` stays a
separate local and is not part of the dict), then the common tail. -/
def explicitMatrices (args : List Val) : Except PyErr (OpfResult × List String) :=
  match destructureExplicit args with
  | Except.error e => Except.error e
  | Except.ok p =>
    commonTail
      [("baseMVA", p.baseMVA), ("bus", p.bus), ("gen", p.gen),
       ("branch", p.branch), ("gencost", p.gencost)]
      p.areas p.s

/-- The whole of `opf_args` (lines 86-324): `args[0]` (raising `IndexError`
on an empty argument list), the convention test of line 92 on the first
argument's type, then the matching branch. -/
def opf_args (args : List Val) : Except PyErr (OpfResult × List String) :=
  match args with
  | [] => Except.error PyErr.indexError
  | a0 :: _ => if isinstStrDict a0 then caseHandle args else explicitMatrices args

/-- Is the value Python's `None`? -/
def Val.isNone : Val → Bool
  | Val.none => true
  | _ => false

/-- No value stored in the dict is `None`. -/
def dictNoneFree (d : List (String × Val)) : Bool :=
  d.all (fun kv => !kv.2.isNone)

/-- A call argument that is not `None` and, when it is a case dict, embeds
no `None` values among its fields. -/
def noneFreeArg : Val → Bool
  | Val.pycase d => dictNoneFree d
  | v => !v.isNone

/-- All twelve destructured component variables are non-`None`. -/
def slotsNF (s : Slots) : Prop :=
  s.Au.isNone = false ∧ s.lbu.isNone = false ∧ s.ubu.isNone = false ∧
  s.ppopt.isNone = false ∧ s.N.isNone = false ∧ s.fparm.isNone = false ∧
  s.H.isNone = false ∧ s.Cw.isNone = false ∧ s.z0.isNone = false ∧
  s.zl.isNone = false ∧ s.zu.isNone = false ∧ s.userfcn.isNone = false


/-- A complete demonstration case structure: all five base fields plus every
optional embedded field (`A`/`l`/`u`, `N`/`Cw`, `H`, `fparm`, `z0`/`zl`/`zu`,
`userfcn`), no `areas`.  All matrix-shaped members are one-column so that
the source's `any(...)` tests have a defined truth value. -/
def demoCase : List (String × Val) :=
  [("baseMVA", Val.num 100),
   ("bus", Val.mat [[1]]), ("gen", Val.mat [[1]]),
   ("branch", Val.mat [[1]]), ("gencost", Val.mat [[1]]),
   ("A", Val.sp 1 1 [[2]]), ("l", Val.vec [0]), ("u", Val.vec [9]),
   ("N", Val.sp 1 1 [[3]]), ("Cw", Val.vec [4]),
   ("H", Val.sp 1 1 [[5]]), ("fparm", Val.vec [1]),
   ("z0", Val.vec [7]), ("zl", Val.vec [0]), ("zu", Val.vec [9]),
   ("userfcn", Val.str "mycb")]

/-- A well-formed case-handle call at arity 9:
`opf_args(ppc, A, l, u, ppopt, N, fparm, H, Cw)`. -/
def c2args : List Val :=
  [Val.pycase demoCase, Val.sp 1 1 [[2]], Val.vec [0], Val.vec [9],
   Val.vec [5], Val.sp 1 1 [[3]], Val.vec [1], Val.sp 1 1 [[5]], Val.vec [4]]

/-- The result value `opf_args c2args` evaluates to. -/
def c2res : OpfResult :=
  { ppc := Val.pycase demoCase, Au := Val.sp 1 1 [[2]], lbu := Val.vec [0],
    ubu := Val.vec [9], ppopt := Val.vec [5], N := Val.sp 1 1 [[3]],
    fparm := Val.vec [1], H := Val.sp 1 1 [[5]], Cw := Val.vec [4],
    z0 := Val.vec [7], zl := Val.vec [0], zu := Val.vec [9] }

/-- The log messages `opf_args c2args` emits (a spurious column complaint
caused by the misparsed comparison of line 288). -/
def c2logs : List String := [colMsg]

/-- A well-formed explicit-matrices call at arity 6:
`opf_args(baseMVA, bus, gen, branch, areas, gencost)`. -/
def c1args : List Val :=
  [Val.num 10, Val.mat [[2]], Val.mat [[3]], Val.mat [[4]], Val.vec [],
   Val.mat [[5]]]

/-- Eleven arguments with a case structure first (neither recognized
arity set contains 11). -/
def c3args : List Val := Val.pycase demoCase :: List.replicate 10 (Val.num 1)

/-- Eleven numeric arguments (explicit-matrices convention, arity 11). -/
def c3wargs : List Val := List.replicate 11 (Val.num 1)

/-- The arity-9 call of `c2args` with `Cw` of length 2 while `N` has one
row. -/
def c4args : List Val :=
  [Val.pycase demoCase, Val.sp 1 1 [[2]], Val.vec [0], Val.vec [9],
   Val.vec [5], Val.sp 1 1 [[3]], Val.vec [1], Val.sp 1 1 [[5]],
   Val.vec [4, 9]]

/-- The arity-9 call of `c2args` with a 2-by-1 `H` while `N` has one row. -/
def c5args : List Val :=
  [Val.pycase demoCase, Val.sp 1 1 [[2]], Val.vec [0], Val.vec [9],
   Val.vec [5], Val.sp 1 1 [[3]], Val.vec [1], Val.sp 2 1 [[5], [0]],
   Val.vec [4]]

/-- The arity-9 call of `c2args` with a dense (numpy) `A` instead of a
sparse one. -/
def c6args : List Val :=
  [Val.pycase demoCase, Val.mat [[2]], Val.vec [0], Val.vec [9],
   Val.vec [5], Val.sp 1 1 [[3]], Val.vec [1], Val.sp 1 1 [[5]],
   Val.vec [4]]

/-- `demoCase` with its `z0` field removed. -/
def c7case : List (String × Val) :=
  [("baseMVA", Val.num 100),
   ("bus", Val.mat [[1]]), ("gen", Val.mat [[1]]),
   ("branch", Val.mat [[1]]), ("gencost", Val.mat [[1]]),
   ("A", Val.sp 1 1 [[2]]), ("l", Val.vec [0]), ("u", Val.vec [9]),
   ("N", Val.sp 1 1 [[3]]), ("Cw", Val.vec [4]),
   ("H", Val.sp 1 1 [[5]]), ("fparm", Val.vec [1]),
   ("zl", Val.vec [0]), ("zu", Val.vec [9]),
   ("userfcn", Val.str "mycb")]

/-- The arity-9 call of `c2args` against the case that lacks `z0`. -/
def c7args : List Val :=
  [Val.pycase c7case, Val.sp 1 1 [[2]], Val.vec [0], Val.vec [9],
   Val.vec [5], Val.sp 1 1 [[3]], Val.vec [1], Val.sp 1 1 [[5]],
   Val.vec [4]]

/-- The arity-9 call of `c2args` with an explicitly empty options value. -/
def c8args : List Val :=
  [Val.pycase demoCase, Val.sp 1 1 [[2]], Val.vec [0], Val.vec [9],
   Val.vec [], Val.sp 1 1 [[3]], Val.vec [1], Val.sp 1 1 [[5]],
   Val.vec [4]]

/-- A case-handle call at arity 4, `opf_args(ppc, A, l, u)`, which omits
the options argument. -/
def c8omitArgs : List Val :=
  [Val.pycase demoCase, Val.sp 1 1 [[2]], Val.vec [0], Val.vec [9]]

/-- The case-handle call at arity 1 on the demonstration case. -/
def c9args1 : List Val := [Val.pycase demoCase]

/-- The explicit-matrices call at arity 6 built from the six leading fields
of `demoCase` (its missing `areas` passed as the empty array). -/
def c9args6 : List Val :=
  [Val.num 100, Val.mat [[1]], Val.mat [[1]], Val.mat [[1]], Val.vec [],
   Val.mat [[1]]]

/-- An explicit-matrices call at arity 7:
`opf_args(baseMVA, bus, gen, branch, areas, gencost, ppopt)`. -/
def c10args : List Val :=
  [Val.num 7, Val.mat [[2]], Val.mat [[2]], Val.mat [[2]], Val.vec [],
   Val.mat [[2]], Val.vec [3]]

theorem isNone_false_of_noneFreeArg {v : Val} (h : noneFreeArg v = true) :
    v.isNone = false := by
  cases v <;> simp_all [noneFreeArg, Val.isNone]

theorem dlookup_noneFree {d : List (String × Val)} {k : String} {v : Val}
    (hd : dictNoneFree d = true) (h : dlookup d k = Option.some v) :
    v.isNone = false := by
  induction d with
  | nil => simp [dlookup] at h
  | cons kv rest ih =>
    obtain ⟨k2, v2⟩ := kv
    simp only [dictNoneFree, List.all_cons, Bool.and_eq_true] at hd
    obtain ⟨h1, h2⟩ := hd
    by_cases hk : k2 = k
    · rw [dlookup, if_pos hk] at h
      injection h with h
      subst h
      simpa using h1
    · rw [dlookup, if_neg hk] at h
      exact ih h2 h

theorem dget_noneFree {d : List (String × Val)} {k : String} {v : Val}
    (hd : dictNoneFree d = true) (h : dget d k = Except.ok v) :
    v.isNone = false := by
  unfold dget at h
  split at h
  · injection h with h; subst h; exact dlookup_noneFree hd (by assumption)
  · simp at h

theorem attrGet_noneFree {d : List (String × Val)} {k : String} {v : Val}
    (hd : dictNoneFree d = true) (h : attrGet d k = Except.ok v) :
    v.isNone = false := by
  unfold attrGet at h
  split at h
  · injection h with h; subst h; exact dlookup_noneFree hd (by assumption)
  · simp at h

theorem adopt1_noneFree {ppc : List (String × Val)} {k : String} {cur v : Val}
    (hd : dictNoneFree ppc = true) (hc : cur.isNone = false)
    (h : adopt1 ppc k cur = Except.ok v) : v.isNone = false := by
  unfold adopt1 at h
  split at h
  · simp at h
  · split at h
    · exact dget_noneFree hd h
    · injection h with h; subst h; exact hc


theorem adopt3_noneFree {ppc : List (String × Val)} {au l u x y z : Val}
    (hd : dictNoneFree ppc = true) (h1 : au.isNone = false)
    (h2 : l.isNone = false) (h3 : u.isNone = false)
    (h : adopt3 ppc au l u = Except.ok (x, y, z)) :
    x.isNone = false ∧ y.isNone = false ∧ z.isNone = false := by
  unfold adopt3 at h
  split at h
  · simp at h
  · split at h
    · split at h
      · simp at h
      · split at h
        · simp at h
        · split at h
          · simp at h
          · simp only [Except.ok.injEq, Prod.mk.injEq] at h
            obtain ⟨e1, e2, e3⟩ := h
            subst e1; subst e2; subst e3
            refine ⟨dget_noneFree hd (by assumption),
                    dget_noneFree hd (by assumption),
                    dget_noneFree hd (by assumption)⟩
    · simp only [Except.ok.injEq, Prod.mk.injEq] at h
      obtain ⟨e1, e2, e3⟩ := h
      subst e1; subst e2; subst e3
      exact ⟨h1, h2, h3⟩

theorem adoptN_noneFree {ppc : List (String × Val)} {n cw x y : Val}
    (hd : dictNoneFree ppc = true) (h1 : n.isNone = false)
    (h2 : cw.isNone = false) (h : adoptN ppc n cw = Except.ok (x, y)) :
    x.isNone = false ∧ y.isNone = false := by
  unfold adoptN at h
  split at h
  · simp at h
  · split at h
    · split at h
      · simp at h
      · split at h
        · simp at h
        · simp only [Except.ok.injEq, Prod.mk.injEq] at h
          obtain ⟨e1, e2⟩ := h
          subst e1; subst e2
          exact ⟨dget_noneFree hd (by assumption), dget_noneFree hd (by assumption)⟩
    · simp only [Except.ok.injEq, Prod.mk.injEq] at h
      obtain ⟨e1, e2⟩ := h
      subst e1; subst e2
      exact ⟨h1, h2⟩

theorem adoptU_noneFree {ppc : List (String × Val)} {cur v : Val}
    (hd : dictNoneFree ppc = true) (hc : cur.isNone = false)
    (h : adoptU ppc cur = Except.ok v) : v.isNone = false := by
  unfold adoptU at h
  split at h
  · simp at h
  · split at h
    · exact attrGet_noneFree hd h
    · injection h with h; subst h; exact hc

theorem adoptN_none (ppc : List (String × Val)) (cw : Val) :
    adoptN ppc Val.none cw = Except.error (PyErr.typeError noneIterMsg) := rfl

theorem loadcase_ok_eq {cf : Val} {d : List (String × Val)}
    (h : loadcase cf = Except.ok d) : cf = Val.pycase d := by
  cases cf <;> simp only [loadcase] at h
  case pycase d2 =>
    split at h
    · injection h with h; rw [h]
    · simp at h
  all_goals simp at h

theorem mergeCase_N_none {s : Slots} (hN : s.N = Val.none) (cf : Val) :
    ∃ e, mergeCase cf s = Except.error e := by
  unfold mergeCase
  split
  · exact ⟨_, rfl⟩
  · split
    · exact ⟨_, rfl⟩
    · split
      · exact ⟨_, rfl⟩
      · split
        · exact ⟨_, rfl⟩
        · split
          · exact ⟨_, rfl⟩
          · split
            · exact ⟨_, rfl⟩
            · split
              · exact ⟨_, rfl⟩
              · split
                · exact ⟨_, rfl⟩
                · rw [hN, adoptN_none]
                  exact ⟨_, rfl⟩

theorem commonTail_N_none {s : Slots} (hN : s.N = Val.none)
    (ppc : List (String × Val)) (areas : Val) :
    commonTail ppc areas s = Except.error (PyErr.attributeError noneShapeMsg) := by
  unfold commonTail
  rw [hN]
  rfl

theorem mergeCase_noneFree {cf : Val} {s : Slots}
    {ppc2 : List (String × Val)} {areas : Val} {s2 : Slots}
    (hcf : noneFreeArg cf = true) (hs : slotsNF s)
    (h : mergeCase cf s = Except.ok (ppc2, areas, s2)) : slotsNF s2 := by
  obtain ⟨n1, n2, n3, n4, n5, n6, n7, n8, n9, n10, n11, n12⟩ := hs
  unfold mergeCase at h
  split at h
  · simp at h
  · rename_i ppc hload
    have hd : dictNoneFree ppc = true := by
      have := loadcase_ok_eq hload
      subst this
      simpa [noneFreeArg] using hcf
    split at h
    · simp at h
    · split at h
      · simp at h
      · split at h
        · simp at h
        · split at h
          · simp at h
          · split at h
            · simp at h
            · split at h
              · simp at h
              · split at h
                · simp at h
                · rename_i au2 l2 u2 hadopt3
                  split at h
                  · simp at h
                  · rename_i nn2 cw2 hadoptN
                    split at h
                    · simp at h
                    · rename_i h2v hadoptH
                      split at h
                      · simp at h
                      · rename_i fp2 hadoptF
                        split at h
                        · simp at h
                        · rename_i z02 hadoptZ0
                          split at h
                          · simp at h
                          · rename_i zl2 hadoptZl
                            split at h
                            · simp at h
                            · rename_i zu2 hadoptZu
                              split at h
                              · simp at h
                              · rename_i uf2 hadoptU
                                simp only [Except.ok.injEq, Prod.mk.injEq] at h
                                obtain ⟨hp, ha, hs2⟩ := h
                                subst hs2
                                obtain ⟨f1, f2, f3⟩ := adopt3_noneFree hd n1 n2 n3 hadopt3
                                obtain ⟨f5, f8⟩ := adoptN_noneFree hd n5 n8 hadoptN
                                have f7 := adopt1_noneFree hd n7 hadoptH
                                have f6 := adopt1_noneFree hd n6 hadoptF
                                have f9 := adopt1_noneFree hd n9 hadoptZ0
                                have f10 := adopt1_noneFree hd n10 hadoptZl
                                have f11 := adopt1_noneFree hd n11 hadoptZu
                                have f12 := adoptU_noneFree hd n12 hadoptU
                                exact ⟨f1, f2, f3, n4, f5, f6, f7, f8, f9, f10, f11, f12⟩


theorem commonTail_ok {ppc : List (String × Val)} {areas : Val} {s : Slots}
    {r : OpfResult} {logs : List String}
    (h : commonTail ppc areas s = Except.ok (r, logs)) :
    (∃ d, r.ppc = Val.pycase d) ∧ r.Au = s.Au ∧ r.lbu = s.lbu ∧
    r.ubu = s.ubu ∧ (r.ppopt = s.ppopt ∨ r.ppopt = ppoptionFn) ∧
    r.N = s.N ∧ r.fparm = s.fparm ∧ r.H = s.H ∧ r.Cw = s.Cw ∧
    r.z0 = s.z0 ∧ r.zl = s.zl ∧ r.zu = s.zu := by
  unfold commonTail at h
  split at h
  · simp at h
  · split at h
    · simp at h
    · split at h
      · simp at h
      · split at h
        · simp at h
        · rename_i x1 nw hnw x2 logs1 hval x3 plen hlen x4 d hasm
          simp only [Except.ok.injEq, Prod.mk.injEq] at h
          obtain ⟨hr, hl⟩ := h
          subst hr
          refine ⟨⟨d, rfl⟩, rfl, rfl, rfl, ?_, rfl, rfl, rfl, rfl, rfl, rfl, rfl⟩
          by_cases hp : plen = 0
          · right; simp [hp]
          · left; simp [hp]

theorem destructureCase_inv {args : List Val} {cf : Val} {s : Slots}
    (h : destructureCase args = Except.ok (cf, s)) :
    s.N = Val.none ∨
    (∃ au l u po n fp hh cw,
      (args = [cf, au, l, u, po, n, fp, hh, cw] ∧
        s = { Au := au, lbu := l, ubu := u, ppopt := po, N := n,
              fparm := fp, H := hh, Cw := cw, z0 := Val.vec [],
              zl := Val.vec [], zu := Val.vec [],
              userfcn := Val.vec [] }) ∨
      (∃ a b c,
        args = [cf, au, l, u, po, n, fp, hh, cw, a, b, c] ∧
        s = { Au := au, lbu := l, ubu := u, ppopt := po, N := n,
              fparm := fp, H := hh, Cw := cw, z0 := a, zl := b, zu := c,
              userfcn := Val.vec [] })) := by
  unfold destructureCase at h
  split at h
  · rename_i cf2 au l u po n fp hh cw a b c
    simp only [Except.ok.injEq, Prod.mk.injEq] at h
    obtain ⟨h1, h2⟩ := h
    subst h1; subst h2
    exact Or.inr ⟨au, l, u, po, n, fp, hh, cw,
      Or.inr ⟨a, b, c, rfl, rfl⟩⟩
  · rename_i cf2 au l u po n fp hh cw
    simp only [Except.ok.injEq, Prod.mk.injEq] at h
    obtain ⟨h1, h2⟩ := h
    subst h1; subst h2
    exact Or.inr ⟨au, l, u, po, n, fp, hh, cw, Or.inl ⟨rfl, rfl⟩⟩
  · simp only [Except.ok.injEq, Prod.mk.injEq] at h
    obtain ⟨h1, h2⟩ := h
    subst h2
    exact Or.inl rfl
  · simp only [Except.ok.injEq, Prod.mk.injEq] at h
    obtain ⟨h1, h2⟩ := h
    subst h2
    exact Or.inl rfl
  · simp only [Except.ok.injEq, Prod.mk.injEq] at h
    obtain ⟨h1, h2⟩ := h
    subst h2
    exact Or.inl rfl
  · simp only [Except.ok.injEq, Prod.mk.injEq] at h
    obtain ⟨h1, h2⟩ := h
    subst h2
    exact Or.inl rfl
  · simp only [Except.ok.injEq, Prod.mk.injEq] at h
    obtain ⟨h1, h2⟩ := h
    subst h2
    exact Or.inl rfl
  · simp at h


theorem destructureExplicit_N_none {args : List Val} {p : ExpParts}
    (h : destructureExplicit args = Except.ok p) : p.s.N = Val.none := by
  unfold destructureExplicit at h
  split at h
  · injection h with h; subst h; rfl
  · injection h with h; subst h; rfl
  · injection h with h; subst h; rfl
  · injection h with h; subst h; rfl
  · split at h <;> simp at h

theorem explicitMatrices_err (args : List Val) :
    ∃ e, explicitMatrices args = Except.error e := by
  unfold explicitMatrices
  cases hd : destructureExplicit args with
  | error e => exact ⟨e, rfl⟩
  | ok p =>
    exact ⟨PyErr.attributeError noneShapeMsg,
      commonTail_N_none (destructureExplicit_N_none hd) _ _⟩

theorem destructureCase_badArity {args : List Val}
    (hmem : args.length ∉ ([1, 2, 3, 4, 5, 9, 12] : List Nat)) :
    destructureCase args = Except.error (PyErr.attributeError loggerAttrMsg) := by
  unfold destructureCase
  split
  · simp at hmem
  · simp at hmem
  · simp at hmem
  · simp at hmem
  · simp at hmem
  · simp at hmem
  · simp at hmem
  · rfl

theorem destructureExplicit_badArity {args : List Val}
    (hmem : args.length ∉ ([6, 7, 8, 9, 10, 14, 17] : List Nat)) :
    destructureExplicit args = Except.error (PyErr.attributeError loggerAttrMsg) := by
  unfold destructureExplicit
  split
  · simp at hmem
  · simp at hmem
  · simp at hmem
  · simp at hmem
  · have hno : ¬(args.length = 10 ∨ args.length = 14 ∨ args.length = 17) := by
      intro hor
      rcases hor with h | h | h <;> simp [h] at hmem
    rw [if_neg hno]


theorem caseHandle_eq_merge {args : List Val} {cf : Val} {s : Slots}
    (hdc : destructureCase args = Except.ok (cf, s)) :
    caseHandle args =
      (match mergeCase cf s with
       | Except.error e => Except.error e
       | Except.ok (ppc, areas, s2) => commonTail ppc areas s2) := by
  unfold caseHandle
  rw [hdc]

/-- Claim C2 (confirmed): every successful call returns through the single
12-component return of line 324, whose components sit in the fixed order
(case dict, Au, lbu, ubu, ppopt, N, fparm, H, Cw, z0, zl, zu) — the field
order of `OpfResult` — and, provided no argument smuggles a `None` in
(directly or inside the case dict), none of the twelve returned components
is the absent/undefined marker `None`: every slot holds an explicit value. -/
theorem opf_args_success_fully_populated
    (args : List Val) (r : OpfResult) (logs : List String)
    (hnf : ∀ v ∈ args, noneFreeArg v = true)
    (h : opf_args args = Except.ok (r, logs)) :
    r.ppc.isNone = false ∧ r.Au.isNone = false ∧ r.lbu.isNone = false ∧
    r.ubu.isNone = false ∧ r.ppopt.isNone = false ∧ r.N.isNone = false ∧
    r.fparm.isNone = false ∧ r.H.isNone = false ∧ r.Cw.isNone = false ∧
    r.z0.isNone = false ∧ r.zl.isNone = false ∧ r.zu.isNone = false := by
  cases args with
  | nil => simp [opf_args] at h
  | cons a0 rest =>
    simp only [opf_args] at h
    by_cases hty : isinstStrDict a0 = true
    · rw [if_pos hty] at h
      unfold caseHandle at h
      split at h
      · simp at h
      · rename_i x1 cf s hdc
        split at h
        · simp at h
        · rename_i x2 ppc areas s2 hmc
          obtain ⟨⟨d, hppc⟩, hAu, hlbu, hubu, hppopt, hN, hfparm, hH,
            hCw, hz0, hzl, hzu⟩ := commonTail_ok h
          rcases destructureCase_inv hdc with hNnone |
            ⟨au, l, u, po, n, fp, hh, cw, hcase⟩
          · obtain ⟨e, he⟩ := mergeCase_N_none hNnone cf
            rw [he] at hmc
            simp at hmc
          · have hpair : slotsNF s ∧ noneFreeArg cf = true := by
              rcases hcase with ⟨hargs, hs⟩ | ⟨a, b, c, hargs, hs⟩
              · subst hs
                refine ⟨⟨?_, ?_, ?_, ?_, ?_, ?_, ?_, ?_, rfl, rfl, rfl, rfl⟩, ?_⟩
                · exact isNone_false_of_noneFreeArg (hnf au (by rw [hargs]; simp))
                · exact isNone_false_of_noneFreeArg (hnf l (by rw [hargs]; simp))
                · exact isNone_false_of_noneFreeArg (hnf u (by rw [hargs]; simp))
                · exact isNone_false_of_noneFreeArg (hnf po (by rw [hargs]; simp))
                · exact isNone_false_of_noneFreeArg (hnf n (by rw [hargs]; simp))
                · exact isNone_false_of_noneFreeArg (hnf fp (by rw [hargs]; simp))
                · exact isNone_false_of_noneFreeArg (hnf hh (by rw [hargs]; simp))
                · exact isNone_false_of_noneFreeArg (hnf cw (by rw [hargs]; simp))
                · exact hnf cf (by rw [hargs]; simp)
              · subst hs
                refine ⟨⟨?_, ?_, ?_, ?_, ?_, ?_, ?_, ?_, ?_, ?_, ?_, rfl⟩, ?_⟩
                · exact isNone_false_of_noneFreeArg (hnf au (by rw [hargs]; simp))
                · exact isNone_false_of_noneFreeArg (hnf l (by rw [hargs]; simp))
                · exact isNone_false_of_noneFreeArg (hnf u (by rw [hargs]; simp))
                · exact isNone_false_of_noneFreeArg (hnf po (by rw [hargs]; simp))
                · exact isNone_false_of_noneFreeArg (hnf n (by rw [hargs]; simp))
                · exact isNone_false_of_noneFreeArg (hnf fp (by rw [hargs]; simp))
                · exact isNone_false_of_noneFreeArg (hnf hh (by rw [hargs]; simp))
                · exact isNone_false_of_noneFreeArg (hnf cw (by rw [hargs]; simp))
                · exact isNone_false_of_noneFreeArg (hnf a (by rw [hargs]; simp))
                · exact isNone_false_of_noneFreeArg (hnf b (by rw [hargs]; simp))
                · exact isNone_false_of_noneFreeArg (hnf c (by rw [hargs]; simp))
                · exact hnf cf (by rw [hargs]; simp)
            obtain ⟨g1, g2, g3, g4, g5, g6, g7, g8, g9, g10, g11, g12⟩ :=
              mergeCase_noneFree hpair.2 hpair.1 hmc
            refine ⟨?_, ?_, ?_, ?_, ?_, ?_, ?_, ?_, ?_, ?_, ?_, ?_⟩
            · rw [hppc]; rfl
            · rw [hAu]; exact g1
            · rw [hlbu]; exact g2
            · rw [hubu]; exact g3
            · rcases hppopt with hp | hp
              · rw [hp]; exact g4
              · rw [hp]; rfl
            · rw [hN]; exact g5
            · rw [hfparm]; exact g6
            · rw [hH]; exact g7
            · rw [hCw]; exact g8
            · rw [hz0]; exact g9
            · rw [hzl]; exact g10
            · rw [hzu]; exact g11
    · rw [if_neg hty] at h
      obtain ⟨e, he⟩ := explicitMatrices_err (a0 :: rest)
      rw [he] at h
      simp at h



/-- Witness for C2: the arity-9 case-handle call `c2args` satisfies the
hypotheses and indeed returns, fully populated. -/
theorem opf_args_success_fully_populated_witness :
    (∀ v ∈ c2args, noneFreeArg v = true) ∧
    opf_args c2args = Except.ok (c2res, c2logs) ∧
    (c2res.ppc.isNone = false ∧ c2res.Au.isNone = false ∧
     c2res.lbu.isNone = false ∧ c2res.ubu.isNone = false ∧
     c2res.ppopt.isNone = false ∧ c2res.N.isNone = false ∧
     c2res.fparm.isNone = false ∧ c2res.H.isNone = false ∧
     c2res.Cw.isNone = false ∧ c2res.z0.isNone = false ∧
     c2res.zl.isNone = false ∧ c2res.zu.isNone = false) :=
  ⟨by decide, rfl,
   opf_args_success_fully_populated c2args c2res c2logs (by decide) rfl⟩

/-- Claim C1 (code bug): the docstring documents the explicit-matrices call
`opf_args(baseMVA, bus, gen, branch, areas, gencost)` as one of the 19
supported forms, but every such well-formed call crashes: `N` is still
`None` when line 277 evaluates `N.shape[0]`, so the call raises
`AttributeError` instead of returning a canonical result traceable to the
inputs. -/
theorem opf_args_arity6_never_returns :
    opf_args c1args = Except.error (PyErr.attributeError noneShapeMsg) := rfl

/-- Counterexample for C3: a call with 11 arguments (case structure first)
does not fail with the spec's structured `ArityError`. -/
theorem opf_args_arity11_not_arity_error :
    opf_args c3args ≠ Except.error PyErr.arityError := by
  intro hcontra
  have heval : opf_args c3args
      = Except.error (PyErr.attributeError loggerAttrMsg) := rfl
  rw [heval] at hcontra
  simp at hcontra

/-- Claim C3 (corrected): at every unrecognized argument count the call does
abort and return no canonical result, but the failure is the
`AttributeError` raised by the malformed logging call `logger.logger.error`
of lines 167/269, not a structured arity error. -/
theorem opf_args_bad_arity_attribute_error (args : List Val) (a0 : Val)
    (h0 : args.head? = some a0)
    (hbad : (isinstStrDict a0 = true ∧
              args.length ∉ ([1, 2, 3, 4, 5, 9, 12] : List Nat)) ∨
            (isinstStrDict a0 = false ∧
              args.length ∉ ([6, 7, 8, 9, 10, 14, 17] : List Nat))) :
    opf_args args = Except.error (PyErr.attributeError loggerAttrMsg) := by
  cases args with
  | nil => simp at h0
  | cons b rest =>
    have hb : b = a0 := by simpa using h0
    subst hb
    simp only [opf_args]
    rcases hbad with ⟨hty, hmem⟩ | ⟨hty, hmem⟩
    · rw [if_pos hty]
      unfold caseHandle
      rw [destructureCase_badArity hmem]
    · rw [if_neg (by simp [hty])]
      unfold explicitMatrices
      rw [destructureExplicit_badArity hmem]

/-- Witness for C3 (amended): eleven numeric arguments hit the
explicit-matrices rejection branch. -/
theorem opf_args_bad_arity_attribute_error_witness :
    c3wargs.head? = some (Val.num 1) ∧
    opf_args c3wargs = Except.error (PyErr.attributeError loggerAttrMsg) :=
  ⟨rfl, opf_args_bad_arity_attribute_error c3wargs (Val.num 1) rfl
    (Or.inr ⟨rfl, by decide⟩)⟩

/-- Claim C4 (code bug): with `N` of one row and `Cw` of two rows the
dimension mismatch is only logged (line 279-281) and the call still returns
a canonical result carrying the mismatched `Cw`. -/
theorem opf_args_cw_mismatch_still_returns :
    ∃ r logs, opf_args c4args = Except.ok (r, logs) ∧
      cwMsg ∈ logs ∧ r.Cw = Val.vec [4, 9] :=
  ⟨_, _, rfl, by decide, rfl⟩

/-- Claim C5 (code bug): with `N` of one row and a 2-by-1 `H` the dimension
mismatch is only logged (lines 285-287) and the call still returns a
canonical result carrying the mis-sized `H`. -/
theorem opf_args_h_mismatch_still_returns :
    ∃ r logs, opf_args c5args = Except.ok (r, logs) ∧
      hMsg ∈ logs ∧ r.H = Val.sp 2 1 [[5], [0]] :=
  ⟨_, _, rfl, by decide, rfl⟩

/-- Claim C6 (code bug): a dense `A` only makes line 298-299 log the
sparse-required message; the call still returns a canonical result carrying
the dense `A`. -/
theorem opf_args_dense_a_still_returns :
    ∃ r logs, opf_args c6args = Except.ok (r, logs) ∧
      auSparseMsg ∈ logs ∧ r.Au = Val.mat [[2]] :=
  ⟨_, _, rfl, by decide, rfl⟩

/-- Claim C7 (code bug): because the merge guard of lines 184-185 parses as
`not (any(z0) & ppc.has_key(z0))`, a case that does not embed `z0` makes
the adoption `z0 = ppc["z0"]` run unconditionally and the call dies with
`KeyError` instead of leaving the component absent. -/
theorem opf_args_merge_missing_field_key_error :
    opf_args c7args = Except.error (PyErr.keyError "z0") := rfl

/-- Claim C8 (code bug): an explicitly empty options argument makes
lines 300-301 assign the bare `ppoption` function object — not the default
options table — and a call at an arity that omits options (here arity 4)
never even reaches that point: it crashes in the merge step. -/
theorem opf_args_empty_ppopt_returns_function_object :
    (∃ r logs, opf_args c8args = Except.ok (r, logs) ∧ r.ppopt = ppoptionFn) ∧
    opf_args c8omitArgs = Except.error (PyErr.typeError noneIterMsg) :=
  ⟨⟨_, _, rfl, rfl⟩, rfl⟩

/-- Claim C9 (code bug): the round trip cannot even be stated on the code —
the arity-1 call binds `casefile = args` (the whole tuple, line 165), so the
loader fails, and the arity-6 call crashes at `N.shape[0]`; neither
convention produces a canonical result for the equivalent inputs. -/
theorem opf_args_round_trip_both_fail :
    opf_args c9args1
      = Except.error (PyErr.delegatedLoadError "not a filename or case struct") ∧
    opf_args c9args6
      = Except.error (PyErr.attributeError noneShapeMsg) :=
  ⟨rfl, rfl⟩

/-- Claim C10 (confirmed): every explicit-matrices call at arity 6-10, and
every case-handle call at arity 1-5 whose case structure embeds no `N`,
terminates by raising an exception and never returns a result tuple (the
explicit arities 6-9 die at the unconditional `N.shape[0]` of line 277;
arity 10 dies earlier in the broken unpacking; the case-handle arities die
in the loader call or the merge conditionals). -/
theorem opf_args_missing_n_always_raises (args : List Val) (a0 : Val)
    (h0 : args.head? = some a0)
    (hc : (isinstStrDict a0 = false ∧
            args.length ∈ ([6, 7, 8, 9, 10] : List Nat)) ∨
          (∃ d, a0 = Val.pycase d ∧ hasKey d "N" = false ∧
            args.length ∈ ([1, 2, 3, 4, 5] : List Nat))) :
    ∃ e, opf_args args = Except.error e := by
  cases args with
  | nil => simp at h0
  | cons b rest =>
    have hb : b = a0 := by simpa using h0
    subst hb
    simp only [opf_args]
    rcases hc with ⟨hty, hmem⟩ | ⟨d, hd0, hkey, hmem⟩
    · rw [if_neg (by simp [hty])]
      exact explicitMatrices_err _
    · subst hd0
      have hcond : isinstStrDict (Val.pycase d) = true := rfl
      rw [if_pos hcond]
      cases hdc : destructureCase (Val.pycase d :: rest) with
      | error e => exact ⟨e, by unfold caseHandle; rw [hdc]⟩
      | ok pr =>
        obtain ⟨cf, s⟩ := pr
        rw [caseHandle_eq_merge hdc]
        rcases destructureCase_inv hdc with hNnone |
          ⟨au, l, u, po, n, fp, hh, cw, hcase⟩
        · obtain ⟨e, he⟩ := mergeCase_N_none hNnone cf
          rw [he]
          exact ⟨e, rfl⟩
        · exfalso
          rcases hcase with ⟨hargs, hs⟩ | ⟨a2, b2, c2, hargs, hs⟩
          · rw [hargs] at hmem
            simp at hmem
          · rw [hargs] at hmem
            simp at hmem

/-- Witness for C10: the explicit-matrices arity-7 call `c10args`
satisfies the hypotheses and raises. -/
theorem opf_args_missing_n_always_raises_witness :
    c10args.head? = some (Val.num 7) ∧
    ∃ e, opf_args c10args = Except.error e :=
  ⟨rfl, opf_args_missing_n_always_raises c10args (Val.num 7) rfl
    (Or.inl ⟨rfl, by decide⟩)⟩

end Pypower
